import Mathlib

/-!
Verification of the token-ledger slice of the repository: the abstract
token actor state (`state3`), the version-dispatched message builder
(`message3` and the `Message` factory), and the full-node `TokenAPI`
adapters. Go values are embedded shallowly: addresses become an inductive
type, `abi.TokenAmount` (an arbitrary-precision integer) becomes `Int`,
HAMT-backed maps become association lists, and fallible Go functions
return `Except`.
-/

namespace Token

/-- Shallow embedding of `address.Address` from go-address: either the
undefined (zero-value) address, an ID address, or a key-based (robust)
address carrying its payload bytes. -/
inductive Addr where
  | undef : Addr
  | id : Nat → Addr
  | key : List Nat → Addr
deriving DecidableEq, Repr

/-- The Init system actor's address (`init_.Address`, ID address 1), the
destination of actor-creation messages. -/
def initAddr : Addr := Addr.id 1

/-- Lookup in an association list keyed by addresses, with a default for
absent keys. This models a HAMT `Get` that reports "not found". -/
def getA {α : Type} (d : α) : List (Addr × α) → Addr → α
  | [], _ => d
  | (a, v) :: t, k => if a = k then v else getA d t k

/-- Update in an association list: bind `k` to `v`, dropping any previous
binding of `k`. Models a HAMT `Put` on one key. -/
def setA {α : Type} (l : List (Addr × α)) (k : Addr) (v : α) : List (Addr × α) :=
  (k, v) :: l.filter (fun p => p.1 ≠ k)

/-- Keys of an association list. -/
def keysA {α : Type} (l : List (Addr × α)) : List Addr :=
  l.map Prod.fst

/-- Shallow embedding of `token.TokenInfo` (aliased as `token.Info` in the
abstraction layer): name, symbol, icon bytes, decimals, total supply. -/
structure TokenInfo where
  name : String
  symbol : String
  icon : List Nat
  decimals : Nat
  totalSupply : Int
deriving DecidableEq, Repr

/-- Shallow embedding of the decoded token actor state behind `state3`:
the token metadata plus the balances table (holder → amount) and the
two-level approvals table (holder → spender → allowance). The
`constructed` flag records whether the constructor has run. -/
structure TState where
  constructed : Bool
  info : TokenInfo
  balances : List (Addr × Int)
  approvals : List (Addr × List (Addr × Int))
deriving DecidableEq, Repr

/-- The state of a not-yet-constructed token actor: empty tables and
zeroed metadata. -/
def initTState : TState :=
  { constructed := false
  , info := { name := "", symbol := "", icon := [], decimals := 0, totalSupply := 0 }
  , balances := []
  , approvals := [] }

/-- Balance of a holder: absent key means balance 0. -/
def balOf (s : TState) (h : Addr) : Int :=
  getA 0 s.balances h

/-- Allowance of a spender on a holder's funds: absence at either level
means allowance 0. -/
def allowOf (s : TState) (holder spender : Addr) : Int :=
  getA 0 (getA [] s.approvals holder) spender

/-- Sum of all recorded balances. -/
def sumBal : List (Addr × Int) → Int
  | [] => 0
  | (_, v) :: t => v + sumBal t

/-- Deterministic business-rule failures of the mutation methods
(`ApplicationError` in the spec's terminology). -/
inductive AppError where
  | alreadyConstructed : AppError
  | insufficientBalance : AppError
  | insufficientAllowance : AppError
  | invalidRecipient : AppError
deriving DecidableEq, Repr

/-- Modelled from the spec: the token actor's constructor (the v3 token
actor code is not part of this slice). Create fails `AlreadyConstructed`
on re-invocation; otherwise it records the token info and credits the
caller (the issuer) with the entire supply. -/
def applyCreate (caller : Addr) (info : TokenInfo) (s : TState) : Except AppError TState :=
  if s.constructed then .error .alreadyConstructed
  else .ok { constructed := true, info := info
           , balances := [(caller, info.totalSupply)], approvals := [] }

/-- Debit `src` and credit `dst` by `amount` in a balances table, as one
derivation: first the debit is written, then the credit is written on the
resulting table (so a self-transfer nets to no change). -/
def transferBal (l : List (Addr × Int)) (src dst : Addr) (amount : Int) : List (Addr × Int) :=
  setA (setA l src (getA 0 l src - amount)) dst
    (getA 0 (setA l src (getA 0 l src - amount)) dst + amount)

/-- Modelled from the spec: the token actor's Transfer method. Fails
`InsufficientBalance` if the caller's balance is below the amount, fails
`InvalidRecipient` if the recipient cannot be resolved (modelled as the
undefined address); otherwise debits the caller and credits the
recipient. -/
def applyTransfer (caller dst : Addr) (amount : Int) (s : TState) : Except AppError TState :=
  if balOf s caller < amount then .error .insufficientBalance
  else if dst = Addr.undef then .error .invalidRecipient
  else .ok { s with balances := transferBal s.balances caller dst amount }

/-- Modelled from the spec: the token actor's Approve method. Overwrites
(does not increment) the caller's allowance for the spender. -/
def applyApprove (caller spender : Addr) (amount : Int) (s : TState) : Except AppError TState :=
  .ok { s with approvals := setA s.approvals caller (setA (getA [] s.approvals caller) spender amount) }

/-- Modelled from the spec: the token actor's TransferFrom method. Fails
`InsufficientAllowance` if the caller's allowance from the holder is below
the amount, then `InsufficientBalance` if the holder's balance is; on
success it debits the holder, credits the recipient, and decrements the
allowance by the amount. -/
def applyTransferFrom (caller holder dst : Addr) (amount : Int) (s : TState) :
    Except AppError TState :=
  if allowOf s holder caller < amount then .error .insufficientAllowance
  else if balOf s holder < amount then .error .insufficientBalance
  else .ok { s with balances := transferBal s.balances holder dst amount, approvals := setA s.approvals holder (setA (getA [] s.approvals holder) caller (allowOf s holder caller - amount)) }

/-- One mutation message, as dispatched by the execution engine: the
method plus its parameters, with `caller` the message sender. -/
inductive Mutation where
  | create (caller : Addr) (info : TokenInfo) : Mutation
  | transfer (caller dst : Addr) (amount : Int) : Mutation
  | transferFrom (caller holder dst : Addr) (amount : Int) : Mutation
  | approve (caller spender : Addr) (amount : Int) : Mutation
deriving DecidableEq, Repr

/-- Apply one mutation to the state, failing with an `AppError` on a
business-rule violation. -/
def applyMutation (s : TState) : Mutation → Except AppError TState
  | .create caller info => applyCreate caller info s
  | .transfer caller dst amount => applyTransfer caller dst amount s
  | .transferFrom caller holder dst amount => applyTransferFrom caller holder dst amount s
  | .approve caller spender amount => applyApprove caller spender amount s

/-- The engine's whole-method atomicity: a failing mutation discards all
changes, leaving the prior state root in place. -/
def stepState (s : TState) (m : Mutation) : TState :=
  match applyMutation s m with
  | .ok s' => s'
  | .error _ => s

/-- Apply a finite sequence of mutations in the externally assigned total
order. -/
def applySeq (s : TState) : List Mutation → TState
  | [] => s
  | m :: ms => applySeq (stepState s m) ms

/-- The conservation invariant I1: the recorded total supply equals the
sum of all balances. -/
def conserved (s : TState) : Prop :=
  sumBal s.balances = s.info.totalSupply

/-- Well-formedness we maintain alongside conservation: the balances
table binds each holder at most once (as a map does). -/
def goodState (s : TState) : Prop :=
  (keysA s.balances).Nodup ∧ conserved s

theorem sumBal_filter_ne (l : List (Addr × Int)) (k : Addr)
    (h : (keysA l).Nodup) :
    sumBal (l.filter (fun p => p.1 ≠ k)) = sumBal l - getA 0 l k := by
  induction l with
  | nil => simp [sumBal, getA]
  | cons p t ih =>
    obtain ⟨a, b⟩ := p
    simp only [keysA, List.map_cons, List.nodup_cons] at h
    obtain ⟨ha, ht⟩ := h
    by_cases hak : a = k
    · subst hak
      have hfilt : t.filter (fun p => p.1 ≠ a) = t := by
        apply List.filter_eq_self.mpr
        intro p hp
        simp only [ne_eq, decide_eq_true_eq]
        intro hpa
        exact ha (hpa ▸ List.mem_map_of_mem Prod.fst hp)
      rw [List.filter_cons_of_neg (by simp), hfilt]
      simp only [sumBal, getA, if_pos rfl, eq_self_iff_true, if_true]
      ring
    · rw [List.filter_cons_of_pos (by simp [hak])]
      simp only [sumBal, getA, ih ht, if_neg hak]
      ring

theorem sumBal_setA (l : List (Addr × Int)) (k : Addr) (v : Int)
    (h : (keysA l).Nodup) :
    sumBal (setA l k v) = sumBal l - getA 0 l k + v := by
  simp only [setA, sumBal, sumBal_filter_ne l k h]
  ring

theorem keysA_filter_ne {α : Type} (l : List (Addr × α)) (k : Addr) :
    keysA (l.filter (fun p => p.1 ≠ k)) = (keysA l).filter (fun a => a ≠ k) := by
  simp only [keysA, ne_eq, decide_not]
  induction l with
  | nil => rfl
  | cons p t ih =>
    obtain ⟨a, b⟩ := p
    simp only [List.filter_cons, List.map_cons]
    by_cases hak : a = k
    · simp [hak, ih]
    · simp [hak, ih]

theorem keysA_setA {α : Type} (l : List (Addr × α)) (k : Addr) (v : α) :
    keysA (setA l k v) = k :: (keysA l).filter (fun a => a ≠ k) := by
  have h := keysA_filter_ne l k
  simp only [setA, keysA, List.map_cons] at h ⊢
  rw [h]

theorem nodup_keysA_setA {α : Type} (l : List (Addr × α)) (k : Addr) (v : α)
    (h : (keysA l).Nodup) :
    (keysA (setA l k v)).Nodup := by
  rw [keysA_setA]
  refine List.nodup_cons.mpr ⟨?_, h.filter _⟩
  intro hk
  have := List.of_mem_filter hk
  simp at this

theorem sumBal_transferBal (l : List (Addr × Int)) (src dst : Addr) (a : Int)
    (h : (keysA l).Nodup) :
    sumBal (transferBal l src dst a) = sumBal l := by
  unfold transferBal
  rw [sumBal_setA _ _ _ (nodup_keysA_setA _ _ _ h), sumBal_setA _ _ _ h]
  ring

theorem nodup_keysA_transferBal (l : List (Addr × Int)) (src dst : Addr) (a : Int)
    (h : (keysA l).Nodup) :
    (keysA (transferBal l src dst a)).Nodup := by
  unfold transferBal
  exact nodup_keysA_setA _ _ _ (nodup_keysA_setA _ _ _ h)

theorem goodState_applyCreate {caller : Addr} {info : TokenInfo} {s s' : TState}
    (hok : applyCreate caller info s = .ok s') : goodState s' := by
  unfold applyCreate at hok
  split at hok
  · exact absurd hok (by simp)
  · cases hok
    constructor
    · simp [keysA]
    · show sumBal [(caller, info.totalSupply)] = info.totalSupply
      simp [sumBal]

theorem goodState_applyTransfer {caller dst : Addr} {amount : Int} {s s' : TState}
    (hok : applyTransfer caller dst amount s = .ok s') (h : goodState s) : goodState s' := by
  obtain ⟨hnd, hc⟩ := h
  unfold applyTransfer at hok
  split at hok
  · exact absurd hok (by simp)
  · split at hok
    · exact absurd hok (by simp)
    · cases hok
      exact ⟨nodup_keysA_transferBal _ _ _ _ hnd,
        (sumBal_transferBal _ _ _ _ hnd).trans hc⟩

theorem goodState_applyTransferFrom {caller holder dst : Addr} {amount : Int} {s s' : TState}
    (hok : applyTransferFrom caller holder dst amount s = .ok s') (h : goodState s) :
    goodState s' := by
  obtain ⟨hnd, hc⟩ := h
  unfold applyTransferFrom at hok
  split at hok
  · exact absurd hok (by simp)
  · split at hok
    · exact absurd hok (by simp)
    · cases hok
      exact ⟨nodup_keysA_transferBal _ _ _ _ hnd,
        (sumBal_transferBal _ _ _ _ hnd).trans hc⟩

theorem goodState_applyApprove {caller spender : Addr} {amount : Int} {s s' : TState}
    (hok : applyApprove caller spender amount s = .ok s') (h : goodState s) : goodState s' := by
  unfold applyApprove at hok
  cases hok
  exact h

theorem goodState_stepState (s : TState) (m : Mutation) (h : goodState s) :
    goodState (stepState s m) := by
  unfold stepState
  cases hap : applyMutation s m with
  | error e => exact h
  | ok s' =>
    cases m with
    | create caller info => exact goodState_applyCreate hap
    | transfer caller dst amount => exact goodState_applyTransfer hap h
    | transferFrom caller holder dst amount => exact goodState_applyTransferFrom hap h
    | approve caller spender amount => exact goodState_applyApprove hap h

theorem goodState_applySeq (s : TState) (ms : List Mutation) (h : goodState s) :
    goodState (applySeq s ms) := by
  induction ms generalizing s with
  | nil => exact h
  | cons m ms ih => exact ih _ (goodState_stepState s m h)

theorem goodState_initTState : goodState initTState := by
  constructor
  · simp [initTState, keysA]
  · rfl

/-- C1: conservation of supply. For every state reachable by applying any
finite sequence of the four mutation methods (Create, Transfer,
TransferFrom, Approve) starting from the unconstructed state — a failing
method leaving the state unchanged, per the engine's whole-method
atomicity — the sum of all holder balances equals the recorded total
supply. -/
theorem conservation_applySeq (ms : List Mutation) :
    sumBal (applySeq initTState ms).balances = (applySeq initTState ms).info.totalSupply :=
  (goodState_applySeq initTState ms goodState_initTState).2

/-! ## The message builder (`message3` and the version dispatch) -/

/-- Whether a fallible computation returned a value rather than an error. -/
def isOkE {ε α : Type} : Except ε α → Bool
  | .ok _ => true
  | .error _ => false

/-- Build-time failure (`BuildError`): in the builder operations the only
fallible step is `actors.SerializeParams`, and in CBOR marshalling of the
parameter structs the only failing case is the undefined (zero-value)
address, which go-address refuses to marshal. Amounts are big integers
and always marshal, negative values included (sign-magnitude encoding). -/
inductive BuildError where
  | undefAddress : BuildError
deriving DecidableEq, Repr

/-- CBOR bytes of an address (shape only: a tag byte plus a payload);
marshalling the undefined address fails. -/
def serializeAddrBytes : Addr → Except BuildError (List Nat)
  | .undef => .error .undefAddress
  | .id n => .ok [0, n]
  | .key bs => .ok (1 :: bs)

/-- CBOR bytes of a big-integer amount: a sign byte plus the magnitude.
Total — marshalling never fails, for negative amounts included. -/
def serializeAmountBytes (a : Int) : List Nat :=
  if a < 0 then [1, (-a).toNat] else [0, a.toNat]

/-- Bytes of a string (its character codes). -/
def serializeStringBytes (s : String) : List Nat :=
  s.data.map Char.toNat

/-- `token.TransferParams`: recipient and amount. -/
structure TransferParams where
  toAddr : Addr
  value : Int
deriving DecidableEq, Repr

/-- `actors.SerializeParams` on `TransferParams`: fields in declaration
order; fails only if the recipient address is undefined. -/
def serializeTransferParams (p : TransferParams) : Except BuildError (List Nat) := do
  let tb ← serializeAddrBytes p.toAddr
  .ok (tb ++ serializeAmountBytes p.value)

/-- `token.TransferFromParams`: holder, recipient and amount. -/
structure TransferFromParams where
  fromAddr : Addr
  toAddr : Addr
  value : Int
deriving DecidableEq, Repr

/-- `actors.SerializeParams` on `TransferFromParams`. -/
def serializeTransferFromParams (p : TransferFromParams) : Except BuildError (List Nat) := do
  let fb ← serializeAddrBytes p.fromAddr
  let tb ← serializeAddrBytes p.toAddr
  .ok (fb ++ tb ++ serializeAmountBytes p.value)

/-- `token.ApproveParams`: the spender (approvee) and the amount. -/
structure ApproveParams where
  approvee : Addr
  value : Int
deriving DecidableEq, Repr

/-- `actors.SerializeParams` on `ApproveParams`. -/
def serializeApproveParams (p : ApproveParams) : Except BuildError (List Nat) := do
  let ab ← serializeAddrBytes p.approvee
  .ok (ab ++ serializeAmountBytes p.value)

/-- `token.ConstructorParams`: the token info plus the system account
(the issuer, set to the builder's sender). -/
structure ConstructorParams where
  name : String
  symbol : String
  icon : List Nat
  decimals : Nat
  totalSupply : Int
  systemAccount : Addr
deriving DecidableEq, Repr

/-- `actors.SerializeParams` on `ConstructorParams`: fails only if the
system-account address is undefined. -/
def serializeConstructorParams (p : ConstructorParams) : Except BuildError (List Nat) := do
  let sb ← serializeAddrBytes p.systemAccount
  .ok (serializeStringBytes p.name ++ serializeStringBytes p.symbol ++ p.icon
       ++ [p.decimals] ++ serializeAmountBytes p.totalSupply ++ sb)

/-- Actor code identifiers (CIDs) appearing in exec params. -/
inductive ActorCode where
  | tokenV3 : ActorCode
  | other (n : Nat) : ActorCode
deriving DecidableEq, Repr

/-- `init0.ExecParams`: the code CID of the actor to instantiate plus its
already-serialized constructor parameters. -/
structure ExecParams where
  codeCID : ActorCode
  constructorParams : List Nat
deriving DecidableEq, Repr

/-- `actors.SerializeParams` on `ExecParams`: total — a code CID and a
byte string always marshal. -/
def serializeExecParams (p : ExecParams) : List Nat :=
  (match p.codeCID with | .tokenV3 => [3] | .other n => [4, n]) ++ p.constructorParams

/-- Shallow embedding of `types.Message` as the builder populates it:
destination, sender, method number, serialized params and attached native
value. -/
structure Message where
  toAddr : Addr
  fromAddr : Addr
  method : Nat
  params : List Nat
  value : Int
deriving DecidableEq, Repr

/-- `builtin0.MethodsInit.Exec`: the Init actor's Exec method number. -/
def methodsInitExec : Nat := 2

/-- The token actor's method numbers, as the builder uses them
(`builtin3.MethodsToken`). -/
structure TokenMethods where
  constructorM : Nat
  transferM : Nat
  transferFromM : Nat
  approveM : Nat
deriving DecidableEq, Repr

/-- Modelled from the spec: `builtin3.MethodsToken` (the v3 token actor
source is not part of this slice). The four mutation entry points are
numbered in declaration order with the constructor at 1, the
specs-actors convention. -/
def methodsToken : TokenMethods :=
  { constructorM := 1, transferM := 2, transferFromM := 3, approveM := 4 }

/-- The `message3` builder value: it carries only the sender address. -/
structure message3 where
  fromAddr : Addr
deriving DecidableEq, Repr

/-- `message3.Create`: serializes the full token info (with the sender as
system account) as constructor params, wraps them in Init `ExecParams`,
and addresses the message to the Init actor with value 0. -/
def message3.Create (m : message3) (info : TokenInfo) : Except BuildError Message := do
  let enc ← serializeConstructorParams
    { name := info.name, symbol := info.symbol, icon := info.icon
    , decimals := info.decimals, totalSupply := info.totalSupply
    , systemAccount := m.fromAddr }
  let enc2 := serializeExecParams { codeCID := .tokenV3, constructorParams := enc }
  .ok { toAddr := initAddr, fromAddr := m.fromAddr, method := methodsInitExec
      , params := enc2, value := 0 }

/-- `message3.Transfer`: serializes recipient and amount and addresses
the message to the token actor with value 0. -/
def message3.Transfer (m : message3) (tokenAddr dst : Addr) (amount : Int) :
    Except BuildError Message := do
  let enc ← serializeTransferParams { toAddr := dst, value := amount }
  .ok { toAddr := tokenAddr, fromAddr := m.fromAddr, method := methodsToken.transferM
      , params := enc, value := 0 }

/-- `message3.TransferFrom`: serializes holder, recipient and amount and
addresses the message to the token actor with value 0. -/
def message3.TransferFrom (m : message3) (tokenAddr holder dst : Addr) (amount : Int) :
    Except BuildError Message := do
  let enc ← serializeTransferFromParams { fromAddr := holder, toAddr := dst, value := amount }
  .ok { toAddr := tokenAddr, fromAddr := m.fromAddr, method := methodsToken.transferFromM
      , params := enc, value := 0 }

/-- `message3.Approve`: serializes spender and amount and addresses the
message to the token actor with value 0. -/
def message3.Approve (m : message3) (tokenAddr spender : Addr) (amount : Int) :
    Except BuildError Message := do
  let enc ← serializeApproveParams { approvee := spender, value := amount }
  .ok { toAddr := tokenAddr, fromAddr := m.fromAddr, method := methodsToken.approveM
      , params := enc, value := 0 }

/-- Outcome of calling the package's `Message` factory: either a builder
value, or a Go `panic` unwinding the process (the factory's default
switch arm). A panic is not a returned error value. -/
inductive BuilderRes where
  | builder (b : message3) : BuilderRes
  | panicked (msg : String) : BuilderRes
deriving DecidableEq, Repr

/-- The `Message(version, from)` factory: version 3 yields the `message3`
builder; every other actors version hits the default arm, which panics. -/
def MessageFactory (version : Nat) (fromAddr : Addr) : BuilderRes :=
  if version = 3 then .builder { fromAddr := fromAddr }
  else .panicked ("unsupported actors version: " ++ toString version)

theorem serializeAddrBytes_ok (a : Addr) (h : a ≠ Addr.undef) :
    ∃ bs, serializeAddrBytes a = .ok bs := by
  cases a with
  | undef => exact absurd rfl h
  | id n => exact ⟨_, rfl⟩
  | key bs => exact ⟨_, rfl⟩

/-- C2 counterexample: with a negative amount (−1) and well-formed
addresses, Transfer, TransferFrom and Approve all return a serialized
Message (`isOkE` holds), not a BuildError — the builder performs no
domain check on the amount. -/
theorem builder_negative_amount_counterexample :
    isOkE ((message3.mk (Addr.id 100)).Transfer (Addr.id 90) (Addr.id 101) (-1)) = true ∧
    isOkE ((message3.mk (Addr.id 100)).TransferFrom (Addr.id 90) (Addr.id 100) (Addr.id 101) (-1)) = true ∧
    isOkE ((message3.mk (Addr.id 100)).Approve (Addr.id 90) (Addr.id 102) (-1)) = true := by
  decide

/-- C2 amended: the builder operations perform no domain check on the
amount. For every amount — negative included — Transfer, TransferFrom and
Approve return a serialized Message whenever their address parameters are
defined; a BuildError can arise only from parameter serialization (an
undefined address), never from the amount's sign. -/
theorem builder_amount_unchecked (m : message3) (tokenAddr dst holder spender : Addr)
    (amount : Int) (hdst : dst ≠ Addr.undef) (hholder : holder ≠ Addr.undef)
    (hspender : spender ≠ Addr.undef) :
    isOkE (m.Transfer tokenAddr dst amount) = true ∧
    isOkE (m.TransferFrom tokenAddr holder dst amount) = true ∧
    isOkE (m.Approve tokenAddr spender amount) = true := by
  refine ⟨?_, ?_, ?_⟩
  · obtain ⟨bs, hbs⟩ := serializeAddrBytes_ok dst hdst
    simp [message3.Transfer, serializeTransferParams, hbs, isOkE, Bind.bind, Except.bind]
  · obtain ⟨bs1, hbs1⟩ := serializeAddrBytes_ok holder hholder
    obtain ⟨bs2, hbs2⟩ := serializeAddrBytes_ok dst hdst
    simp [message3.TransferFrom, serializeTransferFromParams, hbs1, hbs2, isOkE,
      Bind.bind, Except.bind]
  · obtain ⟨bs, hbs⟩ := serializeAddrBytes_ok spender hspender
    simp [message3.Approve, serializeApproveParams, hbs, isOkE, Bind.bind, Except.bind]

theorem builder_amount_unchecked_witness :
    isOkE ((message3.mk (Addr.id 100)).Transfer (Addr.id 90) (Addr.id 101) (-5)) = true ∧
    isOkE ((message3.mk (Addr.id 100)).TransferFrom (Addr.id 90) (Addr.id 100) (Addr.id 101) (-5)) = true ∧
    isOkE ((message3.mk (Addr.id 100)).Approve (Addr.id 90) (Addr.id 102) (-5)) = true :=
  builder_amount_unchecked (message3.mk (Addr.id 100)) (Addr.id 90) (Addr.id 101)
    (Addr.id 100) (Addr.id 102) (-5) (by decide) (by decide) (by decide)

/-- C3 counterexample: requesting a message builder for actors version 2
does not produce a builder (so none of the four operations can run, and
no BuildError value is returned): the factory's default switch arm
panics. -/
theorem version_dispatch_counterexample :
    MessageFactory 2 (Addr.id 100) =
      BuilderRes.panicked ("unsupported actors version: " ++ toString 2) := by
  decide

/-- C3 amended: for every actors version other than 3, the `Message`
factory panics (a process panic, not a returned error), so no builder is
obtained and no operation ever returns a BuildError for an unsupported
version. -/
theorem version_dispatch_panics (version : Nat) (fromAddr : Addr) (h : version ≠ 3) :
    MessageFactory version fromAddr =
      BuilderRes.panicked ("unsupported actors version: " ++ toString version) := by
  simp [MessageFactory, h]

theorem version_dispatch_panics_witness :
    MessageFactory 0 (Addr.id 7) =
      BuilderRes.panicked ("unsupported actors version: " ++ toString 0) :=
  version_dispatch_panics 0 (Addr.id 7) (by decide)

/-- C6 counterexample: the message successfully built by Create is
addressed to the Init system actor (ID address 1) — the constructor goes
through `Init.Exec` because the ledger actor does not exist yet — so its
To is not the token (ledger) actor's address, refuting the claim for the
Create operation. -/
theorem create_message_counterexample :
    (((message3.mk (Addr.id 100)).Create
        { name := "T", symbol := "TOK", icon := [], decimals := 18, totalSupply := 1000 }).map
      Message.toAddr) = .ok initAddr ∧ initAddr = Addr.id 1 :=
  ⟨rfl, rfl⟩

/-- C6 amended: every message successfully produced by Transfer,
TransferFrom or Approve has Value 0, From equal to the builder's sender,
and To equal to the token actor address passed to the operation; a
message successfully produced by Create has Value 0 and From equal to the
sender, but its To is the Init system actor's address (`init_.Address`),
not a token actor address. -/
theorem builder_message_shape (m : message3) (tokenAddr dst holder spender : Addr)
    (amount : Int) (info : TokenInfo) :
    (∀ msg, m.Transfer tokenAddr dst amount = .ok msg →
      msg.toAddr = tokenAddr ∧ msg.fromAddr = m.fromAddr ∧ msg.value = 0) ∧
    (∀ msg, m.TransferFrom tokenAddr holder dst amount = .ok msg →
      msg.toAddr = tokenAddr ∧ msg.fromAddr = m.fromAddr ∧ msg.value = 0) ∧
    (∀ msg, m.Approve tokenAddr spender amount = .ok msg →
      msg.toAddr = tokenAddr ∧ msg.fromAddr = m.fromAddr ∧ msg.value = 0) ∧
    (∀ msg, m.Create info = .ok msg →
      msg.toAddr = initAddr ∧ msg.fromAddr = m.fromAddr ∧ msg.value = 0) := by
  refine ⟨?_, ?_, ?_, ?_⟩
  · intro msg hmsg
    cases hdst : serializeAddrBytes dst with
    | error e =>
      simp [message3.Transfer, serializeTransferParams, hdst, Bind.bind, Except.bind] at hmsg
    | ok bs =>
      simp [message3.Transfer, serializeTransferParams, hdst, Bind.bind, Except.bind] at hmsg
      simp [← hmsg]
  · intro msg hmsg
    cases hh : serializeAddrBytes holder with
    | error e =>
      simp [message3.TransferFrom, serializeTransferFromParams, hh, Bind.bind, Except.bind] at hmsg
    | ok bs1 =>
      cases hdst : serializeAddrBytes dst with
      | error e =>
        simp [message3.TransferFrom, serializeTransferFromParams, hh, hdst,
          Bind.bind, Except.bind] at hmsg
      | ok bs2 =>
        simp [message3.TransferFrom, serializeTransferFromParams, hh, hdst,
          Bind.bind, Except.bind] at hmsg
        simp [← hmsg]
  · intro msg hmsg
    cases hsp : serializeAddrBytes spender with
    | error e =>
      simp [message3.Approve, serializeApproveParams, hsp, Bind.bind, Except.bind] at hmsg
    | ok bs =>
      simp [message3.Approve, serializeApproveParams, hsp, Bind.bind, Except.bind] at hmsg
      simp [← hmsg]
  · intro msg hmsg
    cases hsa : serializeAddrBytes m.fromAddr with
    | error e =>
      simp [message3.Create, serializeConstructorParams, hsa, Bind.bind, Except.bind] at hmsg
    | ok bs =>
      simp [message3.Create, serializeConstructorParams, hsa, Bind.bind, Except.bind] at hmsg
      simp [← hmsg]

theorem builder_message_shape_witness :
    (Message.mk (Addr.id 90) (Addr.id 100) 2 [0, 101, 0, 7] 0).toAddr = Addr.id 90 ∧
    (Message.mk (Addr.id 90) (Addr.id 100) 2 [0, 101, 0, 7] 0).fromAddr = Addr.id 100 ∧
    (Message.mk (Addr.id 90) (Addr.id 100) 2 [0, 101, 0, 7] 0).value = 0 :=
  (builder_message_shape (message3.mk (Addr.id 100)) (Addr.id 90) (Addr.id 101)
      (Addr.id 100) (Addr.id 102) 7
      { name := "T", symbol := "TOK", icon := [], decimals := 18, totalSupply := 1000 }).1
    (Message.mk (Addr.id 90) (Addr.id 100) 2 [0, 101, 0, 7] 0) rfl

/-! ## Method-number tables -/

/-- Name-to-number lookup in a method table. -/
def lookupMethod (table : List (String × Nat)) (s : String) : Option Nat :=
  (table.find? (fun p => p.1 = s)).map Prod.snd

/-- `builtin3.MethodsMultisig`, the multisig actor's method table from
specs-actors v3: methods in declaration order from the constructor. It
has no Transfer or TransferFrom entries. -/
def methodsMultisigTable : List (String × Nat) :=
  [("Constructor", 1), ("Propose", 2), ("Approve", 3), ("Cancel", 4), ("AddSigner", 5),
   ("RemoveSigner", 6), ("SwapSigner", 7), ("ChangeNumApprovalsThreshold", 8),
   ("LockBalance", 9)]

/-- Modelled from the spec: `builtin3.MethodsToken` as a name-to-number
table (the v3 token actor source is not part of this slice); the numbers
are the ones of `methodsToken`, which the builder stamps into its
messages. -/
def methodsTokenTable : List (String × Nat) :=
  [("Constructor", methodsToken.constructorM), ("Transfer", methodsToken.transferM),
   ("TransferFrom", methodsToken.transferFromM), ("Approve", methodsToken.approveM)]

/-- `var Methods = builtin3.MethodsMultisig` — the method table the token
builder package actually exports. -/
def Methods : List (String × Nat) := methodsMultisigTable

/-- C9: the exported `Methods` table is the multisig actor's table, not
the token actor's: it has no Transfer or TransferFrom entries at all, and
its Approve entry is method 3 while the builder stamps Approve messages
with the token actor's Approve number 4 — so the exported table does not
assign Transfer, TransferFrom and Approve the numbers the builder writes
into messages. -/
theorem methods_table_mismatch :
    Methods = methodsMultisigTable ∧
    lookupMethod Methods "Transfer" = none ∧
    lookupMethod Methods "TransferFrom" = none ∧
    lookupMethod Methods "Approve" = some 3 ∧
    lookupMethod methodsTokenTable "Transfer" = some methodsToken.transferM ∧
    lookupMethod methodsTokenTable "TransferFrom" = some methodsToken.transferFromM ∧
    lookupMethod methodsTokenTable "Approve" = some methodsToken.approveM ∧
    methodsToken.approveM ≠ 3 ∧
    (((message3.mk (Addr.id 100)).Transfer (Addr.id 90) (Addr.id 101) 5).map Message.method
      = .ok methodsToken.transferM) := by
  refine ⟨rfl, by decide, by decide, by decide, by decide, by decide, by decide, by decide, rfl⟩

/-! ## State reads (`state3`) -/

instance exceptDecEq {ε α : Type} [DecidableEq ε] [DecidableEq α] : DecidableEq (Except ε α)
  | .ok x, .ok y =>
    if h : x = y then .isTrue (congrArg Except.ok h)
    else .isFalse (fun hh => h (Except.ok.inj hh))
  | .error x, .error y =>
    if h : x = y then .isTrue (congrArg Except.error h)
    else .isFalse (fun hh => h (Except.error.inj hh))
  | .ok _, .error _ => .isFalse (fun hh => Except.noConfusion hh)
  | .error _, .ok _ => .isFalse (fun hh => Except.noConfusion hh)

/-- Lookup in an association list reporting presence, as a HAMT `Get`
reports its `found` flag. -/
def getOptA {α : Type} : List (Addr × α) → Addr → Option α
  | [], _ => none
  | (a, v) :: t, k => if a = k then some v else getOptA t k

/-- `state3.BalanceOf`, which delegates to the v3 actor state's
`BalanceOf(store, holder)`. Modelled from the spec for the actor-state
part (the v3 token actor source is not part of this slice): the lookup in
the balances map yields the stored amount, and an absent key yields 0
with no error. Store and decoding failures do not arise on an in-memory
state. -/
def BalanceOf (s : TState) (holder : Addr) : Except String Int :=
  .ok (getA 0 s.balances holder)

/-- `state3.ApprovalsBy`: looks the holder up in the approvals table; if
the holder is not found it returns the empty mapping and no error
(`return nil, nil`); otherwise it materializes the holder's spender
table entry by entry. -/
def ApprovalsBy (s : TState) (holder : Addr) : Except String (List (Addr × Int)) :=
  match getOptA s.approvals holder with
  | none => .ok []
  | some spenders => .ok spenders

/-- The callback-driven traversal underlying the `ForEach` methods: visit
the entries in order, aborting with the callback's error at the first
failing entry. -/
def forEachEntries {α ε : Type} : List (Addr × α) → (Addr → α → Except ε Unit) → Except ε Unit
  | [], _ => .ok ()
  | (k, v) :: t, cb => match cb k v with
    | .ok _ => forEachEntries t cb
    | .error e => .error e

/-- `state3.ForEachHolder`: traverses the balances table, invoking the
callback on each holder/balance entry. -/
def ForEachHolder {ε : Type} (s : TState) (cb : Addr → Int → Except ε Unit) : Except ε Unit :=
  forEachEntries s.balances cb

/-- `state3.ForEachApproval`: traverses the approvals table, and for each
holder traverses that holder's spender table, invoking the callback on
each (holder, spender, available) entry. -/
def ForEachApproval {ε : Type} (s : TState) (cb : Addr → Addr → Int → Except ε Unit) :
    Except ε Unit :=
  forEachEntries s.approvals (fun holder spenders =>
    forEachEntries spenders (fun spender available => cb holder spender available))

theorem getA_of_not_mem {α : Type} (d : α) (l : List (Addr × α)) (k : Addr)
    (h : k ∉ keysA l) : getA d l k = d := by
  induction l with
  | nil => rfl
  | cons p t ih =>
    obtain ⟨a, b⟩ := p
    simp only [keysA, List.map_cons, List.mem_cons] at h
    push_neg at h
    simp only [getA, if_neg (Ne.symm h.1)]
    exact ih h.2

theorem getOptA_of_not_mem {α : Type} (l : List (Addr × α)) (k : Addr)
    (h : k ∉ keysA l) : getOptA l k = none := by
  induction l with
  | nil => rfl
  | cons p t ih =>
    obtain ⟨a, b⟩ := p
    simp only [keysA, List.map_cons, List.mem_cons] at h
    push_neg at h
    simp only [getOptA, if_neg (Ne.symm h.1)]
    exact ih h.2

/-- C4: for every holder address absent from the balances map of a
loaded state, BalanceOf returns amount 0 and no error. -/
theorem balanceOf_absent (s : TState) (holder : Addr) (h : holder ∉ keysA s.balances) :
    BalanceOf s holder = .ok 0 := by
  unfold BalanceOf
  rw [getA_of_not_mem 0 s.balances holder h]

theorem balanceOf_absent_witness :
    BalanceOf (TState.mk true (TokenInfo.mk "T" "TOK" [] 18 1000) [(Addr.id 2, 10)] [])
      (Addr.id 3) = .ok 0 :=
  balanceOf_absent _ (Addr.id 3) (by decide)

/-- C7: for every holder address with no entry in the approvals map,
ApprovalsBy returns an empty mapping and no error. -/
theorem approvalsBy_absent (s : TState) (holder : Addr) (h : holder ∉ keysA s.approvals) :
    ApprovalsBy s holder = .ok [] := by
  unfold ApprovalsBy
  rw [getOptA_of_not_mem _ _ h]

theorem approvalsBy_absent_witness :
    ApprovalsBy
      (TState.mk true (TokenInfo.mk "T" "TOK" [] 18 1000) [(Addr.id 2, 10)]
        [(Addr.id 2, [(Addr.id 4, 3)])])
      (Addr.id 5) = .ok [] :=
  approvalsBy_absent _ (Addr.id 5) (by decide)

theorem forEachEntries_append_error {α ε : Type} (pre : List (Addr × α)) (k : Addr) (v : α)
    (post : List (Addr × α)) (cb : Addr → α → Except ε Unit) (e : ε)
    (hpre : ∀ p ∈ pre, cb p.1 p.2 = .ok ()) (hk : cb k v = .error e) :
    forEachEntries (pre ++ (k, v) :: post) cb = .error e := by
  induction pre with
  | nil => simp only [List.nil_append, forEachEntries, hk]
  | cons p t ih =>
    obtain ⟨a, b⟩ := p
    have hp : cb a b = .ok () := hpre (a, b) (by simp)
    simp only [List.cons_append, forEachEntries, hp]
    exact ih (fun q hq => hpre q (by simp [hq]))

theorem forEachEntries_ok_forall {α ε : Type} (l : List (Addr × α))
    (cb : Addr → α → Except ε Unit) (h : forEachEntries l cb = .ok ()) :
    ∀ p ∈ l, cb p.1 p.2 = .ok () := by
  induction l with
  | nil => simp
  | cons p t ih =>
    obtain ⟨a, b⟩ := p
    cases hcb : cb a b with
    | error e =>
      simp only [forEachEntries, hcb] at h
      exact Except.noConfusion h
    | ok u =>
      cases u
      simp only [forEachEntries, hcb] at h
      intro q hq
      rcases List.mem_cons.mp hq with heq | hq'
      · subst heq; exact hcb
      · exact ih h q hq'

theorem forEachEntries_error_exists {α ε : Type} (l : List (Addr × α))
    (cb : Addr → α → Except ε Unit) (e : ε) (h : forEachEntries l cb = .error e) :
    ∃ p ∈ l, cb p.1 p.2 = .error e := by
  induction l with
  | nil =>
    simp only [forEachEntries] at h
    exact Except.noConfusion h
  | cons p t ih =>
    obtain ⟨a, b⟩ := p
    cases hcb : cb a b with
    | error e2 =>
      simp only [forEachEntries, hcb] at h
      cases h
      exact ⟨(a, b), by simp, hcb⟩
    | ok u =>
      cases u
      simp only [forEachEntries, hcb] at h
      obtain ⟨q, hq, hcbq⟩ := ih h
      exact ⟨q, by simp [hq], hcbq⟩

/-- C5: a failing visitor aborts the traversal with that same failure,
never a silent partial success. For ForEachHolder: if the callback fails
on the first not-yet-successful entry, that same error is returned; and
an overall nil (ok) result means the callback succeeded on every entry.
For ForEachApproval: an overall ok result means the callback succeeded on
every (holder, spender) entry, and a returned error is the error some
callback invocation produced — never invented or swallowed. -/
theorem foreach_visitor_failure {ε : Type} (s : TState) :
    (∀ (cb : Addr → Int → Except ε Unit) pre k v post e,
      s.balances = pre ++ (k, v) :: post →
      (∀ p ∈ pre, cb p.1 p.2 = .ok ()) →
      cb k v = .error e →
      ForEachHolder s cb = .error e) ∧
    (∀ (cb : Addr → Int → Except ε Unit),
      ForEachHolder s cb = .ok () → ∀ p ∈ s.balances, cb p.1 p.2 = .ok ()) ∧
    (∀ (cb : Addr → Addr → Int → Except ε Unit) e,
      ForEachApproval s cb = .error e →
      ∃ holder spender available, cb holder spender available = .error e) ∧
    (∀ (cb : Addr → Addr → Int → Except ε Unit),
      ForEachApproval s cb = .ok () →
      ∀ p ∈ s.approvals, ∀ q ∈ p.2, cb p.1 q.1 q.2 = .ok ()) := by
  refine ⟨?_, ?_, ?_, ?_⟩
  · intro cb pre k v post e hdecomp hpre hk
    unfold ForEachHolder
    rw [hdecomp]
    exact forEachEntries_append_error pre k v post cb e hpre hk
  · intro cb h
    exact forEachEntries_ok_forall s.balances cb h
  · intro cb e h
    obtain ⟨p, hp, hinner⟩ := forEachEntries_error_exists s.approvals _ e h
    obtain ⟨q, hq, hcb⟩ := forEachEntries_error_exists p.2 _ e hinner
    exact ⟨p.1, q.1, q.2, hcb⟩
  · intro cb h p hp q hq
    have hinner := forEachEntries_ok_forall s.approvals _ h p hp
    exact forEachEntries_ok_forall p.2 _ hinner q hq

theorem foreach_visitor_failure_witness :
    ForEachHolder (TState.mk true (TokenInfo.mk "T" "TOK" [] 18 1000)
        [(Addr.id 1, 5), (Addr.id 2, 7)] [])
      (fun a _ => if a = Addr.id 2 then .error 42 else .ok ()) = .error (42 : Nat) :=
  (foreach_visitor_failure
      (TState.mk true (TokenInfo.mk "T" "TOK" [] 18 1000)
        [(Addr.id 1, 5), (Addr.id 2, 7)] [])).1
    (fun a _ => if a = Addr.id 2 then .error 42 else .ok ())
    [(Addr.id 1, 5)] (Addr.id 2) 7 [] 42 (by decide) (by decide) (by decide)

/-! ## The full-node `TokenAPI` adapters -/

/-- The state-manager operations the token API consumes: `StateLookupID`
resolves an address to its canonical ID form (failing for addresses not
present on chain) and `StateAccountKey` resolves an ID address to its
public key address (failing e.g. for non-account actors); per the
state manager's Go convention, either returns the zero-value (undefined)
address alongside its error. -/
structure StateEnv where
  stateLookupID : Addr → Except String Addr
  stateAccountKey : Addr → Except String Addr

/-- `TokenAPI.TokenBalanceOf` from src/node/impl/full/token.go: loads the
actor state, resolves the holder to its ID address via `StateLookupID`,
and queries the balance of the resolved address. -/
def TokenBalanceOf_resolving (env : StateEnv) (s : TState) (holder : Addr) :
    Except String Int := do
  let idAddr ← env.stateLookupID holder
  BalanceOf s idAddr

/-- `TokenAPI.TokenBalanceOf` from the coexisting copy of the file
(src/unnamed/part_005): loads the actor state and queries the balance of
the holder address exactly as given, with no ID resolution. -/
def TokenBalanceOf_direct (s : TState) (holder : Addr) : Except String Int :=
  BalanceOf s holder

/-- A sample chain environment for the balance-query comparison: the
robust (key) address `key [9]` is an account whose ID address is `id 7`;
every other address resolves to itself. -/
def envC8 : StateEnv :=
  { stateLookupID := fun a => if a = Addr.key [9] then .ok (Addr.id 7) else .ok a
  , stateAccountKey := fun a => if a = Addr.id 7 then .ok (Addr.key [9]) else .ok a }

/-- A sample token state for the balance-query comparison: the balances
table is keyed by ID address, crediting `id 7` with 100. -/
def stateC8 : TState :=
  TState.mk true (TokenInfo.mk "T" "TOK" [] 18 100) [(Addr.id 7, 100)] []

/-- C8 counterexample: querying the balance of the robust address
`key [9]` — whose balance is recorded under its ID address `id 7` — the
resolving implementation returns 100 while the direct implementation
returns 0: the two coexisting implementations do not agree for every
holder address. -/
theorem token_balance_of_counterexample :
    TokenBalanceOf_resolving envC8 stateC8 (Addr.key [9]) = .ok 100 ∧
    TokenBalanceOf_direct stateC8 (Addr.key [9]) = .ok 0 ∧
    (Except.ok 100 : Except String Int) ≠ .ok 0 := by
  refine ⟨rfl, rfl, by decide⟩

/-- C8 amended: the two implementations agree exactly on holders that
`StateLookupID` resolves to themselves (in particular ID addresses
already in canonical form); they can disagree on a robust address whose
balance is recorded under its ID address, and on addresses whose
resolution fails. -/
theorem token_balance_of_agree (env : StateEnv) (s : TState) (holder : Addr)
    (h : env.stateLookupID holder = .ok holder) :
    TokenBalanceOf_resolving env s holder = TokenBalanceOf_direct s holder := by
  simp [TokenBalanceOf_resolving, TokenBalanceOf_direct, h, Bind.bind, Except.bind]

theorem token_balance_of_agree_witness :
    TokenBalanceOf_resolving envC8 stateC8 (Addr.id 7) =
      TokenBalanceOf_direct stateC8 (Addr.id 7) :=
  token_balance_of_agree envC8 stateC8 (Addr.id 7) (by decide)

/-- An entry of the holder listing (`api.Holder`): the holder's ID
address, its public key address, and its balance. -/
structure Holder where
  idAddress : Addr
  pubKeyAddress : Addr
  balance : Int
deriving DecidableEq, Repr

/-- The accumulating form of the callback traversal: the Go callback
closes over the growing `ret` slice, so the accumulator is threaded
explicitly here; a callback error aborts with that error. -/
def forEachAccum {α β ε : Type} : List (Addr × α) → (β → Addr → α → Except ε β) → β →
    Except ε β
  | [], _, acc => .ok acc
  | (k, v) :: t, cb, acc => match cb acc k v with
    | .ok acc2 => forEachAccum t cb acc2
    | .error e => .error e

/-- The record `TokenGetHolders` builds for one holder: the ID address
and balance from the traversal, and the public key address from
`StateAccountKey` with the error discarded (`pubkeyAddr, _ := ...`), so
a failed lookup leaves the zero-value (undefined) address. -/
def holderEntry (env : StateEnv) (holder : Addr) (balance : Int) : Holder :=
  { idAddress := holder
  , pubKeyAddress := match env.stateAccountKey holder with
      | .ok a => a
      | .error _ => Addr.undef
  , balance := balance }

/-- `TokenAPI.TokenGetHolders` from src/node/impl/full/token.go: walks
the balances table with a callback that appends one `Holder` per entry
and always returns nil. -/
def TokenGetHolders (env : StateEnv) (s : TState) : Except String (List Holder) :=
  forEachAccum s.balances
    (fun acc holder balance => .ok (acc ++ [holderEntry env holder balance])) []

theorem forEachAccum_ok {α β : Type} (l : List (Addr × α)) (f : Addr → α → β)
    (acc : List β) :
    forEachAccum l (fun acc2 k v => (.ok (acc2 ++ [f k v]) : Except String (List β))) acc
      = .ok (acc ++ l.map (fun p => f p.1 p.2)) := by
  induction l generalizing acc with
  | nil => simp [forEachAccum]
  | cons p t ih =>
    obtain ⟨a, b⟩ := p
    simp [forEachAccum, ih, List.append_assoc]

/-- C10: the holder enumeration never aborts and surfaces no error, for
every behavior of the per-holder `StateAccountKey` lookup: it returns the
full list of holders in traversal order, each with its ID address and
balance set; and a holder whose public-key lookup fails still appears,
with the `PubKeyAddress` field left at the zero value (the undefined
address). -/
theorem tokenGetHolders_total (env : StateEnv) (s : TState) :
    TokenGetHolders env s = .ok (s.balances.map (fun p => holderEntry env p.1 p.2)) ∧
    (∀ p ∈ s.balances, ∀ e, env.stateAccountKey p.1 = .error e →
      Holder.mk p.1 Addr.undef p.2 ∈ s.balances.map (fun p => holderEntry env p.1 p.2)) := by
  constructor
  · unfold TokenGetHolders
    exact forEachAccum_ok s.balances (fun holder balance => holderEntry env holder balance) []
  · intro p hp e he
    have : holderEntry env p.1 p.2 = Holder.mk p.1 Addr.undef p.2 := by
      unfold holderEntry
      rw [he]
    rw [← this]
    exact List.mem_map_of_mem _ hp

/-- A sample chain environment for the holder listing: the public-key
lookup succeeds for `id 1` (an account with key address `key [5]`) and
fails for `id 2`. -/
def envC10 : StateEnv :=
  { stateLookupID := fun a => .ok a
  , stateAccountKey := fun a =>
      if a = Addr.id 1 then .ok (Addr.key [5]) else .error "not an account actor" }

/-- A sample token state for the holder listing: two holders, `id 1` and
`id 2`. -/
def stateC10 : TState :=
  TState.mk true (TokenInfo.mk "T" "TOK" [] 18 30) [(Addr.id 1, 10), (Addr.id 2, 20)] []

theorem tokenGetHolders_total_witness :
    TokenGetHolders envC10 stateC10 =
      .ok [Holder.mk (Addr.id 1) (Addr.key [5]) 10, Holder.mk (Addr.id 2) Addr.undef 20] ∧
    Holder.mk (Addr.id 2) Addr.undef 20 ∈
      stateC10.balances.map (fun p => holderEntry envC10 p.1 p.2) :=
  ⟨(tokenGetHolders_total envC10 stateC10).1,
   (tokenGetHolders_total envC10 stateC10).2 (Addr.id 2, 20) (by decide)
     "not an account actor" rfl⟩

end Token
